import Mathlib

/-
Verification of the pcdaemon peripheral request/response protocol engine.

The drivers under src/fpga-drivers are shallowly embedded: each C function
becomes a Lean function on an explicit state record, and every externally
visible action (pclog, pc_tx_pkt, send_ui, prompt, bcst_ui, add_timer,
del_timer) is recorded as an element of an effect list.  External
collaborators (the transport, the timer queue, the UI fanout) are modelled
by their contracts: the result of pc_tx_pkt is a parameter txret, the
handle returned by add_timer is a parameter fresh, and bcst_ui's clearing
of the broadcast key is driven by a parameter subsRemain.
-/

namespace Pcdaemon

/-- Modelled from the spec: core.h is not under src/.  Section 6 describes the
cmd byte as the operation (read or write) OR'd with the auto-increment or
auto-data flag; the two mask extractions used by the drivers are modelled as
two fields. -/
inductive PktOp where
  | read
  | write
deriving DecidableEq, Repr

/-- Modelled from the spec: the auto-increment vs auto-data flag of the cmd
byte (PC_CMD_AUTOINC vs PC_CMD_AUTO_DATA in the missing core.h). -/
inductive AutoFlag where
  | autoInc
  | autoData
deriving DecidableEq, Repr

/-- Wire packet, from the PC_PKT the drivers build: 4 byte header (cmd split
into its op and auto parts, core, reg, count) plus data bytes. -/
structure PC_PKT where
  op : PktOp
  auto : AutoFlag
  core : Nat
  reg : Nat
  count : Nat
  data : List Nat
deriving DecidableEq, Repr

/-- Modelled from the spec: NUM_CORE is in the missing core.h; the spec fixes
up to 16 peripheral instances per board and a drivlist of 16 IDs. -/
def NUM_CORE : Nat := 16

/-- Modelled from the spec: E_NOACK lives in the missing core.h; section 4.3
calls it the missing-acknowledgment diagnostic. -/
def E_NOACK : String := "missing acknowledgment from FPGA board"

/-- Modelled from the spec: E_WRFPGA lives in the missing core.h; section 6
lists a transport write failure error message. -/
def E_WRFPGA : String := "ERROR : write to FPGA failed\n"

/-- Error format E_BDVAL of daemon.h applied to a resource name, as the
drivers do with snprintf(buf, *plen, E_BDVAL, name). -/
def E_BDVAL_fmt (name : String) : String :=
  "ERROR 008 : Invalid value given for resource '" ++ name ++ "'\n"

/-- Every externally visible action a driver performs. -/
inductive Effect where
  | logMsg (s : String)
  | txPkt (p : PC_PKT)
  | sendUI (s : String) (cn : Int)
  | promptUI (cn : Int)
  | bcstUI (s : String)
  | delTimerE (h : Nat)
  | armTimerE (h : Nat)
deriving DecidableEq, Repr

/-- Per-resource protocol state from RSC in daemon.h: the broadcast key and
the UI lock (-1 when no session is waiting). -/
structure RSC where
  bkey : Nat
  uilock : Int
deriving DecidableEq, Repr

/-- UI access type PCGET from daemon.h. -/
def PCGET : Nat := 1

/-- UI access type PCSET from daemon.h. -/
def PCSET : Nat := 2

/-- Lowercase hex digit characters, as printf %x produces. -/
def hexStr (n : Nat) : String :=
  String.mk (Nat.toDigits 16 n)

/-- Two-digit zero-padded hex, as printf %02x produces for byte values. -/
def hex2 (n : Nat) : String :=
  (if n < 16 then "0" else "") ++ hexStr n

/-- Four-digit zero-padded hex, as printf %04x produces. -/
def hex4 (n : Nat) : String :=
  String.mk (List.replicate (4 - (hexStr n).length) '0') ++ hexStr n

/-- The (char) cast the drivers apply when storing the session index cn into
the int uilock field, for a signed 8-bit char. -/
def castChar (n : Int) : Int :=
  let m := n % 256
  if 128 ≤ m then m - 256 else m

/-- Whitespace predicate of the scanf conversion. -/
def isWhite (c : Char) : Bool :=
  c = ' ' ∨ c = '\t' ∨ c = '\n' ∨ c = '\r'

/-- Hex digit predicate of the scanf %x conversion. -/
def isHexDig (c : Char) : Bool :=
  (48 ≤ c.toNat ∧ c.toNat ≤ 57) ∨ (97 ≤ c.toNat ∧ c.toNat ≤ 102) ∨
    (65 ≤ c.toNat ∧ c.toNat ≤ 70)

/-- Value of a hex digit character. -/
def hexVal (c : Char) : Nat :=
  if c.toNat ≤ 57 then c.toNat - 48
  else if c.toNat ≤ 70 then c.toNat - 55
  else c.toNat - 87

/-- Accumulate leading hex digits, stopping at the first non-digit. -/
def hexAcc : List Char → Nat → Nat
  | [], acc => acc
  | c :: cs, acc => if isHexDig c then hexAcc cs (acc * 16 + hexVal c) else acc

/-- Modelled contract of the C library sscanf(val, ..x..) conversion the
drivers use: skip leading whitespace, accept an optional 0x prefix, then
require at least one hex digit; none when no conversion happens.  Sign
handling is omitted: a signed input is rejected here while in C it converts
to a negative int that the drivers' own range checks reject, with the same
observable outcome. -/
def scanHex (s : String) : Option Nat :=
  let cs := s.data.dropWhile isWhite
  let cs := if cs.take 2 = ['0', 'x'] ∨ cs.take 2 = ['0', 'X'] then cs.drop 2 else cs
  match cs with
  | [] => none
  | c :: _ => if isHexDig c then some (hexAcc cs 0) else none

namespace Cmods7

/-- Register addresses of cmods7.c. -/
def S7_REG_BUTTONS : Nat := 0x00

/-- Register address of the RGB LED. -/
def S7_REG_LEDS : Nat := 0x01

/-- Register address of the driver list. -/
def S7_REG_DRIVLIST : Nat := 0x40

/-- Resource index RSC_DRIVLIST. -/
def RSC_DRIVLIST : Nat := 0

/-- Resource index RSC_BUTTONS. -/
def RSC_BUTTONS : Nat := 1

/-- Resource index RSC_LEDS. -/
def RSC_LEDS : Nat := 2

/-- Resource name FN_LEDS. -/
def FN_LEDS : String := "rgb"

/-- Private device context S7DEV of cmods7.c. -/
structure S7DEV where
  lastbutton : Nat
  rgb : Nat
  ptimer : Nat
  drivlist : List Nat
deriving DecidableEq, Repr

/-- The driver-visible state: the S7DEV context plus the three resources of
the slot. -/
structure S7State where
  dev : S7DEV
  rscButtons : RSC
  rscLeds : RSC
  rscDrivlist : RSC
deriving DecidableEq, Repr

/-- Timeout handler noAck of cmods7.c: it only logs the missing ack. -/
def noAck (st : S7State) : S7State × List Effect :=
  (st, [Effect.logMsg E_NOACK])

/-- Packet handler of cmods7.c.  A write op clears the timer; a non-autosend
read reply matching the drivlist shape fills the drivlist table; a
non-autosend read reply matching the buttons shape is sent to the locked
session; anything else is treated by elimination as an autosend button
update and broadcast when the buttons bkey is set and the value differs
from lastbutton. -/
def packet_hdlr (st : S7State) (pkt : PC_PKT) (subsRemain : Bool) :
    S7State × List Effect :=
  if pkt.op = PktOp.write then
    if st.dev.ptimer ≠ 0 then
      ({ st with dev := { st.dev with ptimer := 0 } }, [Effect.delTimerE st.dev.ptimer])
    else
      (st, [])
  else
    let newList : List Nat :=
      (List.range NUM_CORE).map
        (fun i => (pkt.data.getD (2 * i) 0) * 256 + pkt.data.getD (2 * i + 1) 0)
    let st1 : S7State :=
      if pkt.auto ≠ AutoFlag.autoData ∧ pkt.reg = S7_REG_DRIVLIST ∧
          pkt.count = 2 * NUM_CORE then
        { st with dev := { st.dev with drivlist := newList, ptimer := 0 } }
      else st
    let effs1 : List Effect :=
      if pkt.auto ≠ AutoFlag.autoData ∧ pkt.reg = S7_REG_DRIVLIST ∧
          pkt.count = 2 * NUM_CORE then
        [Effect.delTimerE st.dev.ptimer]
      else []
    if pkt.auto ≠ AutoFlag.autoData ∧ pkt.reg = S7_REG_BUTTONS ∧ pkt.count = 1 then
      let devB := { st1.dev with ptimer := 0 }
      let rscB := { st1.rscButtons with uilock := (-1 : Int) }
      ({ st1 with dev := devB, rscButtons := rscB },
       effs1 ++ [Effect.sendUI (hexStr (pkt.data.getD 0 0) ++ "\n") st1.rscButtons.uilock,
                 Effect.promptUI st1.rscButtons.uilock,
                 Effect.delTimerE st1.dev.ptimer])
    else if st1.rscButtons.bkey ≠ 0 then
      if st1.dev.lastbutton ≠ pkt.data.getD 0 0 then
        let devB := { st1.dev with lastbutton := pkt.data.getD 0 0 }
        let rscB :=
          { st1.rscButtons with bkey := if subsRemain then st1.rscButtons.bkey else 0 }
        ({ st1 with dev := devB, rscButtons := rscB },
         effs1 ++ [Effect.bcstUI (hexStr (pkt.data.getD 0 0) ++ "\n")])
      else
        ({ st1 with dev := { st1.dev with lastbutton := pkt.data.getD 0 0 } }, effs1)
    else
      (st1, effs1)

/-- Send path board2tofpga of cmods7.c: builds the one-byte RGB write packet,
transmits it, and arms the watchdog only when ptimer is 0; the timer is
armed regardless of the transmit result, whose value is passed back. -/
def board2tofpga (coreId : Nat) (dev : S7DEV) (txret : Int) (fresh : Nat) :
    S7DEV × List Effect × Int :=
  let pkt : PC_PKT :=
    { op := PktOp.write, auto := AutoFlag.autoInc, core := coreId,
      reg := S7_REG_LEDS, count := 1, data := [dev.rgb] }
  let armEffs : List Effect :=
    if dev.ptimer = 0 then [Effect.armTimerE fresh] else []
  let dev' : S7DEV :=
    if dev.ptimer = 0 then { dev with ptimer := fresh } else dev
  (dev', [Effect.txPkt pkt] ++ armEffs, txret)

/-- Send path getdriverlist of cmods7.c: the transmit result is discarded
with a (void) cast and the watchdog is armed only when ptimer is 0. -/
def getdriverlist (coreId : Nat) (dev : S7DEV) (fresh : Nat) :
    S7DEV × List Effect :=
  let pkt : PC_PKT :=
    { op := PktOp.read, auto := AutoFlag.autoInc, core := coreId,
      reg := S7_REG_DRIVLIST, count := 32, data := [] }
  let armEffs : List Effect :=
    if dev.ptimer = 0 then [Effect.armTimerE fresh] else []
  let dev' : S7DEV :=
    if dev.ptimer = 0 then { dev with ptimer := fresh } else dev
  (dev', [Effect.txPkt pkt] ++ armEffs)

/-- Result of a usercmd call: the new state, the characters written to buf,
the output value of *plen, and the external effects. -/
structure UOut where
  st : S7State
  buf : String
  plen : Nat
  effects : List Effect
deriving DecidableEq, Repr

/-- Dispatch callback usercmd of cmods7.c.  plen is the buffer size on input;
txret is the result pc_tx_pkt would report and fresh the handle add_timer
would return. -/
def usercmd (cmd rscid : Nat) (val : String) (coreId : Nat) (st : S7State)
    (cn : Int) (plen : Nat) (txret : Int) (fresh : Nat) : UOut :=
  if cmd = PCSET ∧ rscid = RSC_LEDS then
    match scanHex val with
    | none =>
        { st := st, buf := E_BDVAL_fmt FN_LEDS,
          plen := (E_BDVAL_fmt FN_LEDS).length, effects := [] }
    | some v =>
        if 7 < v then
          { st := st, buf := E_BDVAL_fmt FN_LEDS,
            plen := (E_BDVAL_fmt FN_LEDS).length, effects := [] }
        else
          let r := board2tofpga coreId { st.dev with rgb := v } txret fresh
          if r.2.2 ≠ 0 then
            { st := { st with dev := r.1 }, buf := E_WRFPGA,
              plen := E_WRFPGA.length, effects := r.2.1 }
          else
            { st := { st with dev := r.1 }, buf := "", plen := plen,
              effects := r.2.1 }
  else if cmd = PCGET ∧ rscid = RSC_LEDS then
    { st := st, buf := hexStr st.dev.rgb ++ "\n",
      plen := (hexStr st.dev.rgb ++ "\n").length, effects := [] }
  else if cmd = PCGET ∧ rscid = RSC_BUTTONS then
    let pkt : PC_PKT :=
      { op := PktOp.read, auto := AutoFlag.autoInc, core := coreId,
        reg := S7_REG_BUTTONS, count := 1, data := [] }
    if txret ≠ 0 then
      { st := st, buf := E_WRFPGA, plen := E_WRFPGA.length,
        effects := [Effect.txPkt pkt] }
    else
      let armEffs : List Effect :=
        if st.dev.ptimer = 0 then [Effect.armTimerE fresh] else []
      let dev' : S7DEV :=
        if st.dev.ptimer = 0 then { st.dev with ptimer := fresh } else st.dev
      let rscB := { st.rscButtons with uilock := castChar cn }
      { st := { st with dev := dev', rscButtons := rscB },
        buf := "", plen := 0, effects := [Effect.txPkt pkt] ++ armEffs }
  else if cmd = PCGET ∧ rscid = RSC_DRIVLIST then
    if plen < 5 * NUM_CORE + 10 then
      { st := st, buf := "", plen := 0, effects := [] }
    else
      let s := String.join ((List.range 16).map
        (fun i => hex4 (st.dev.drivlist.getD i 0) ++ " "))
      { st := st, buf := s.dropRight 1 ++ "\n",
        plen := (s.dropRight 1 ++ "\n").length, effects := [] }
  else
    { st := st, buf := "", plen := plen, effects := [] }

/-- One-shot watchdog queue for the cmods7 driver, modelling the add_timer
and del_timer contract of daemon.h: an armed PC_ONESHOT timer fires at most
once and is removed from the queue when it fires. -/
structure TimedS7 where
  st : S7State
  queue : List Nat
deriving DecidableEq, Repr

/-- Expiry of the oldest armed one-shot timer: the timer is removed from
the queue (one-shot contract) and the driver callback noAck runs.  With no
armed timer nothing happens. -/
def fireTimeout (ts : TimedS7) : TimedS7 × List Effect :=
  match ts.queue with
  | [] => (ts, [])
  | _h :: rest =>
      let r := noAck ts.st
      ({ st := r.1, queue := rest }, r.2)

end Cmods7

namespace Rcc8

/-- Data register RCC_DATA of rcc8.c. -/
def RCC_DATA : Nat := 0x00

/-- Config register RCC_CONFIG for the 8-channel build. -/
def RCC_CONFIG : Nat := 0x08

/-- Input pin count NPINS for the 8-channel build. -/
def NPINS : Nat := 8

/-- Private device context RCCDEV of rcc8.c. -/
structure RCCDEV where
  update : Nat
  clksrc : Nat
  polarity : Nat
  ptimer : Nat
deriving DecidableEq, Repr

/-- Driver-visible state: RCCDEV plus the two resources of the slot. -/
structure RCC8State where
  dev : RCCDEV
  rscData : RSC
  rscConfig : RSC
deriving DecidableEq, Repr

/-- Timeout handler noAck of rcc8.c: it only logs the missing ack. -/
def noAck (st : RCC8State) : RCC8State × List Effect :=
  (st, [Effect.logMsg E_NOACK])

/-- Packet handler of rcc8.c: write ops clear the timer; a read that is not
from the data register with one byte per pin is logged as invalid and
discarded; what remains is an autosend sample, broadcast when bkey is set. -/
def packet_hdlr (st : RCC8State) (pkt : PC_PKT) (subsRemain : Bool) :
    RCC8State × List Effect :=
  if pkt.op = PktOp.write then
    ({ st with dev := { st.dev with ptimer := 0 } }, [Effect.delTimerE st.dev.ptimer])
  else if pkt.reg ≠ RCC_DATA ∨ pkt.count ≠ NPINS then
    (st, [Effect.logMsg "invalid rcc packet from board to host"])
  else if st.rscData.bkey ≠ 0 then
    let qstr :=
      String.intercalate " " ((List.range NPINS).map (fun i => hex2 (pkt.data.getD i 0)))
        ++ "\n"
    let rscD := { st.rscData with bkey := if subsRemain then st.rscData.bkey else 0 }
    ({ st with rscData := rscD }, [Effect.bcstUI qstr])
  else
    (st, [])

/-- Send path sendconfigtofpga of rcc8.c: builds the one-byte config write
packet; on a transmit failure it reports E_WRFPGA and returns before the
timer logic; otherwise it arms the watchdog only when ptimer is 0. -/
def sendconfigtofpga (coreId : Nat) (dev : RCCDEV) (txret : Int) (fresh : Nat) :
    RCCDEV × String × List Effect :=
  let pkt : PC_PKT :=
    { op := PktOp.write, auto := AutoFlag.autoInc, core := coreId,
      reg := RCC_CONFIG, count := 1,
      data := [dev.polarity * 64 + dev.clksrc * 16 + dev.update] }
  if txret ≠ 0 then
    (dev, E_WRFPGA, [Effect.txPkt pkt])
  else
    let armEffs : List Effect :=
      if dev.ptimer = 0 then [Effect.armTimerE fresh] else []
    let dev' : RCCDEV :=
      if dev.ptimer = 0 then { dev with ptimer := fresh } else dev
    (dev', "", [Effect.txPkt pkt] ++ armEffs)

end Rcc8

namespace Ps2

/-- Data register PS2_REG_DATA of ps2.c. -/
def PS2_REG_DATA : Nat := 0x00

/-- Private device context PS2DEV of ps2.c; only the watchdog handle is
mutable state. -/
structure PS2DEV where
  ptimer : Nat
deriving DecidableEq, Repr

/-- Scan-code value of received byte i: bits 8 down to 1 of its 11-bit
frame, accumulated msb-last exactly as the handler loop does. -/
def byteVal (bits : List Nat) (i : Nat) : Nat :=
  List.foldl (fun v j => v * 2 + bits.getD (i * 11 + j) 0) 0 [8, 7, 6, 5, 4, 3, 2, 1]

/-- Parity accumulated over the same bits, starting from odd parity 1. -/
def bytePar (bits : List Nat) (i : Nat) : Nat :=
  List.foldl (fun p j => p ^^^ bits.getD (i * 11 + j) 0) 1 [8, 7, 6, 5, 4, 3, 2, 1]

/-- Frame check of received byte i: start bit 0, matching parity, stop
bit 1. -/
def frameOk (bits : List Nat) (i : Nat) : Bool :=
  bits.getD (i * 11) 0 = 0 ∧ bits.getD (i * 11 + 9) 0 = bytePar bits i ∧
    bits.getD (i * 11 + 10) 0 = 1

/-- Decode loop of the handler over byte indices: none as soon as one frame
fails its sanity check (the C code logs and returns), otherwise the
accumulated hex string, one %02x and a space per byte. -/
def decodeBytes (bits : List Nat) : List Nat → Option String
  | [] => some ""
  | i :: rest =>
      if frameOk bits i then
        (decodeBytes bits rest).map (fun s => hex2 (byteVal bits i) ++ " " ++ s)
      else
        none

/-- Packet handler of ps2.c.  The write-reply branch passes ptimer to
del_timer but, unlike the other drivers, never resets the ptimer field.
The result carries the new device context, the new bkey of the data
resource and the effects. -/
def packet_hdlr (dev : PS2DEV) (bkey : Nat) (pkt : PC_PKT) (subsRemain : Bool) :
    PS2DEV × Nat × List Effect :=
  if pkt.auto ≠ AutoFlag.autoData ∧ pkt.reg = PS2_REG_DATA ∧ pkt.count = 11 then
    (dev, bkey, [Effect.delTimerE dev.ptimer])
  else if pkt.op ≠ PktOp.read ∨ pkt.reg ≠ PS2_REG_DATA ∨ pkt.count % 11 ≠ 0 then
    (dev, bkey, [Effect.logMsg "invalid ps2 packet from board to host"])
  else
    match decodeBytes pkt.data (List.range (pkt.count / 11)) with
    | none => (dev, bkey, [Effect.logMsg "invalid ps2 packet from board to host"])
    | some s =>
        if bkey ≠ 0 then
          (dev, if subsRemain then bkey else 0, [Effect.bcstUI (s ++ "\n")])
        else
          (dev, bkey, [])

/-- Bit frame built by ps2xmit: start bit 0, eight data bits lsb first, odd
parity, stop bit 1. -/
def encodeBits (x : Nat) : List Nat :=
  let dbits := (List.range 8).map (fun i => (x >>> i) % 2)
  let parity := List.foldl (fun p b => p ^^^ b) 1 dbits
  [0] ++ dbits ++ [parity, 1]

/-- Result of a ps2xmit call: device context, buf, output plen, effects. -/
structure XOut where
  dev : PS2DEV
  buf : String
  plen : Nat
  effects : List Effect
deriving DecidableEq, Repr

/-- Dispatch callback ps2xmit of ps2.c: ignores anything but PCSET, rejects
an unparsable value with E_BDVAL, sends the 11-bit frame, reports E_WRFPGA
and returns on transmit failure, and otherwise arms the watchdog only when
ptimer is 0. -/
def ps2xmit (cmd : Nat) (val : String) (coreId : Nat) (dev : PS2DEV)
    (plen : Nat) (txret : Int) (fresh : Nat) : XOut :=
  if cmd ≠ PCSET then
    { dev := dev, buf := "", plen := plen, effects := [] }
  else
    match scanHex val with
    | none =>
        { dev := dev, buf := E_BDVAL_fmt "data",
          plen := (E_BDVAL_fmt "data").length, effects := [] }
    | some x =>
        let pkt : PC_PKT :=
          { op := PktOp.write, auto := AutoFlag.autoInc, core := coreId,
            reg := PS2_REG_DATA, count := 11, data := encodeBits x }
        if txret ≠ 0 then
          { dev := dev, buf := E_WRFPGA, plen := E_WRFPGA.length,
            effects := [Effect.txPkt pkt] }
        else
          let armEffs : List Effect :=
            if dev.ptimer = 0 then [Effect.armTimerE fresh] else []
          let dev' : PS2DEV :=
            if dev.ptimer = 0 then { dev with ptimer := fresh } else dev
          { dev := dev', buf := "", plen := 0,
            effects := [Effect.txPkt pkt] ++ armEffs }

/-- Timeout handler noAck of ps2.c: it only logs the missing ack. -/
def noAck (dev : PS2DEV) : PS2DEV × List Effect :=
  (dev, [Effect.logMsg E_NOACK])

/-- The events the select loop can deliver to the ps2 driver instance. -/
inductive Ev where
  | xmit (val : String) (txret : Int) (fresh : Nat)
  | rx (pkt : PC_PKT) (subsRemain : Bool)
  | timeout
deriving DecidableEq

/-- One event step of the ps2 driver: state is the device context paired
with the bkey of the data resource. -/
def step (s : PS2DEV × Nat) (e : Ev) : (PS2DEV × Nat) × List Effect :=
  match e with
  | Ev.xmit val txret fresh =>
      let r := ps2xmit PCSET val 0 s.1 100 txret fresh
      ((r.dev, s.2), r.effects)
  | Ev.rx pkt subsRemain =>
      let r := packet_hdlr s.1 s.2 pkt subsRemain
      ((r.1, r.2.1), r.2.2)
  | Ev.timeout =>
      let r := noAck s.1
      ((r.1, s.2), r.2)

/-- Event trace execution, accumulating effects in order. -/
def run (s : PS2DEV × Nat) : List Ev → (PS2DEV × Nat) × List Effect
  | [] => (s, [])
  | e :: es =>
      let r := step s e
      let r' := run r.1 es
      (r'.1, r.2 ++ r'.2)

end Ps2

/-- The two-line timer arm guard repeated verbatim at every send site of
every FPGA driver: a new watchdog handle is stored only when ptimer is 0. -/
def armIfIdle (ptimer fresh : Nat) : Nat :=
  if ptimer = 0 then fresh else ptimer

namespace Runber

/-- Effect of the switches pcget path of usercmd in runber.c on ptimer: an
early return on transmit failure, then the guarded arm. -/
def getswitches_ptimer (ptimer fresh : Nat) (txOk : Bool) : Nat :=
  if txOk then armIfIdle ptimer fresh else ptimer

/-- Effect of runbertofpga in runber.c on ptimer: the guarded arm runs
regardless of the transmit result. -/
def runbertofpga_ptimer (ptimer fresh : Nat) (_txOk : Bool) : Nat :=
  armIfIdle ptimer fresh

end Runber

namespace Cvcc

/-- Effect of sendconfigtofpga in cvcc.c on ptimer: an early return on
transmit failure, then the guarded arm. -/
def sendconfigtofpga_ptimer (ptimer fresh : Nat) (txOk : Bool) : Nat :=
  if txOk then armIfIdle ptimer fresh else ptimer

end Cvcc

namespace Dgspi

/-- Effect of the data pcget path of cb_data in dgspi.c on ptimer: nothing
is sent when no bytes were parsed, an early return happens on transmit
failure, then the guarded arm. -/
def cb_data_ptimer (ptimer fresh : Nat) (haveBytes txOk : Bool) : Nat :=
  if haveBytes then (if txOk then armIfIdle ptimer fresh else ptimer) else ptimer

end Dgspi

namespace Patgen64

/-- Effect of the pattern pcset path of usercmd in patgen64.c on ptimer:
early return on transmit failure, then the guarded arm. -/
def setpattern_ptimer (ptimer fresh : Nat) (txOk : Bool) : Nat :=
  if txOk then armIfIdle ptimer fresh else ptimer

/-- Effect of the frequency pcset path of usercmd in patgen64.c on ptimer. -/
def setfreq_ptimer (ptimer fresh : Nat) (txOk : Bool) : Nat :=
  if txOk then armIfIdle ptimer fresh else ptimer

/-- Effect of the length pcset path of usercmd in patgen64.c on ptimer. -/
def setlength_ptimer (ptimer fresh : Nat) (txOk : Bool) : Nat :=
  if txOk then armIfIdle ptimer fresh else ptimer

end Patgen64

namespace Sndgen

/-- Effect of the config pcset path of usercmd in sndgen.c on ptimer:
early return when configtofpga reports a transmit failure, then the
guarded arm. -/
def setconfig_ptimer (ptimer fresh : Nat) (txOk : Bool) : Nat :=
  if txOk then armIfIdle ptimer fresh else ptimer

end Sndgen

namespace Vgaterm

/-- Effect of the char pcget path of usercmd in vgaterm.c on ptimer. -/
def getchar_ptimer (ptimer fresh : Nat) (txOk : Bool) : Nat :=
  if txOk then armIfIdle ptimer fresh else ptimer

/-- Effect of the cursor pcget path of usercmd in vgaterm.c on ptimer. -/
def getcursor_ptimer (ptimer fresh : Nat) (txOk : Bool) : Nat :=
  if txOk then armIfIdle ptimer fresh else ptimer

/-- Effect of sendstringtofpga in vgaterm.c on ptimer. -/
def sendstringtofpga_ptimer (ptimer fresh : Nat) (txOk : Bool) : Nat :=
  if txOk then armIfIdle ptimer fresh else ptimer

/-- Effect of sendcursortofpga in vgaterm.c on ptimer. -/
def sendcursortofpga_ptimer (ptimer fresh : Nat) (txOk : Bool) : Nat :=
  if txOk then armIfIdle ptimer fresh else ptimer

/-- Effect of sendattrtofpga in vgaterm.c on ptimer. -/
def sendattrtofpga_ptimer (ptimer fresh : Nat) (txOk : Bool) : Nat :=
  if txOk then armIfIdle ptimer fresh else ptimer

end Vgaterm

/-- A cmods7 state as Initialize leaves it, with concrete values for the
fields Initialize does not set. -/
def s7a : Cmods7.S7State :=
  { dev := { lastbutton := 0, rgb := 0, ptimer := 0, drivlist := List.replicate 16 0 },
    rscButtons := { bkey := 0, uilock := -1 },
    rscLeds := { bkey := 0, uilock := -1 },
    rscDrivlist := { bkey := 0, uilock := -1 } }

/-- A cmods7 state with a session subscribed to button broadcasts. -/
def s7sub : Cmods7.S7State :=
  { dev := { lastbutton := 0, rgb := 0, ptimer := 0, drivlist := List.replicate 16 0 },
    rscButtons := { bkey := 5, uilock := -1 },
    rscLeds := { bkey := 0, uilock := -1 },
    rscDrivlist := { bkey := 0, uilock := -1 } }

/-- A cmods7 state with a subscriber and a recorded last button value 2. -/
def s7dup : Cmods7.S7State :=
  { dev := { lastbutton := 2, rgb := 0, ptimer := 0, drivlist := List.replicate 16 0 },
    rscButtons := { bkey := 5, uilock := -1 },
    rscLeds := { bkey := 0, uilock := -1 },
    rscDrivlist := { bkey := 0, uilock := -1 } }

/-- An rcc8 state as Initialize leaves it. -/
def rcc8a : Rcc8.RCC8State :=
  { dev := { update := 0, clksrc := 0, polarity := 0, ptimer := 0 },
    rscData := { bkey := 0, uilock := -1 },
    rscConfig := { bkey := 0, uilock := -1 } }

/-- An rcc8 state with a session subscribed to sample broadcasts. -/
def rcc8sub : Rcc8.RCC8State :=
  { dev := { update := 0, clksrc := 0, polarity := 0, ptimer := 0 },
    rscData := { bkey := 3, uilock := -1 },
    rscConfig := { bkey := 0, uilock := -1 } }

/-- A non-autosend read reply that matches neither cmods7 reply shape. -/
def mismatchPkt : PC_PKT :=
  { op := PktOp.read, auto := AutoFlag.autoInc, core := 4, reg := 5, count := 1,
    data := [2] }

/-- An autosend button update carrying the value 2. -/
def autoBtnPkt : PC_PKT :=
  { op := PktOp.read, auto := AutoFlag.autoData, core := 4, reg := 0, count := 1,
    data := [2] }

/-- An autosend rcc8 sample packet with one byte per pin. -/
def rccSamplePkt : PC_PKT :=
  { op := PktOp.read, auto := AutoFlag.autoData, core := 1, reg := 0, count := 8,
    data := [1, 2, 3, 4, 5, 6, 7, 8] }

/-- The buttons read reply of concrete scenario A, carrying data 0x02. -/
def btnReplyPkt : PC_PKT :=
  { op := PktOp.read, auto := AutoFlag.autoInc, core := 4, reg := 0, count := 1,
    data := [2] }

/-- A ps2 write-reply packet: non-autosend, reg 0, count 11. -/
def ps2WrPkt : PC_PKT :=
  { op := PktOp.write, auto := AutoFlag.autoInc, core := 0, reg := 0, count := 11,
    data := [] }

/-- A concrete ps2 event trace: a write reply, then a transmit with fresh
handle 5 on offer, then a timeout. -/
def ps2Trace : List Ps2.Ev :=
  [Ps2.Ev.rx ps2WrPkt true, Ps2.Ev.xmit "ff" 0 5, Ps2.Ev.timeout]

end Pcdaemon

namespace Pcdaemon

namespace Cmods7

theorem board2tofpga_rgb (coreId : Nat) (dev : S7DEV) (txret : Int) (fresh : Nat) :
    (board2tofpga coreId dev txret fresh).1.rgb = dev.rgb := by
  simp only [board2tofpga]
  split <;> rfl

theorem board2tofpga_tx (coreId : Nat) (dev : S7DEV) (txret : Int) (fresh : Nat) :
    Effect.txPkt
        { op := PktOp.write, auto := AutoFlag.autoInc, core := coreId,
          reg := S7_REG_LEDS, count := 1, data := [dev.rgb] }
      ∈ (board2tofpga coreId dev txret fresh).2.1 := by
  simp [board2tofpga]

theorem usercmd_pcget_rgb (val : String) (coreId : Nat) (st : S7State) (cn : Int)
    (plen : Nat) (txret : Int) (fresh : Nat) :
    (usercmd PCGET RSC_LEDS val coreId st cn plen txret fresh).buf
      = hexStr st.dev.rgb ++ "\n" := by
  simp [usercmd, PCGET, PCSET, RSC_LEDS]

theorem usercmd_pcset_rgb_st (val : String) (v coreId : Nat) (st : S7State) (cn : Int)
    (plen : Nat) (txret : Int) (fresh : Nat) (hv : scanHex val = some v) (h7 : v ≤ 7) :
    (usercmd PCSET RSC_LEDS val coreId st cn plen txret fresh).st
      = { st with dev := (board2tofpga coreId { st.dev with rgb := v } txret fresh).1 } := by
  have h7' : ¬ 7 < v := Nat.not_lt.mpr h7
  simp only [usercmd, PCSET, RSC_LEDS, hv, h7', if_false, if_true, and_self, ite_true]
  split <;> rfl

theorem usercmd_pcset_rgb_effects (val : String) (v coreId : Nat) (st : S7State)
    (cn : Int) (plen : Nat) (txret : Int) (fresh : Nat)
    (hv : scanHex val = some v) (h7 : v ≤ 7) :
    (usercmd PCSET RSC_LEDS val coreId st cn plen txret fresh).effects
      = (board2tofpga coreId { st.dev with rgb := v } txret fresh).2.1 := by
  have h7' : ¬ 7 < v := Nat.not_lt.mpr h7
  simp only [usercmd, PCSET, RSC_LEDS, hv, h7', if_false, if_true, and_self, ite_true]
  split <;> rfl

end Cmods7

open Cmods7 in
/-- C4.  Desired-state update at send time with no rollback: a pcset of the
cmods7 rgb resource with a hex value v, 0 <= v <= 7, stores v in the rgb
field before the write packet reaches the transport (the transmitted packet
already carries v), keeps v for any transmit result, and keeps v after the
ack watchdog expires (noAck), so a later pcget rgb returns v in hex with a
newline in every case. -/
theorem C4_desired_state_no_rollback (st : S7State) (val : String)
    (v coreId plen plen2 : Nat) (cn cn2 : Int) (txret txret2 : Int) (fresh : Nat)
    (hv : scanHex val = some v) (h7 : v ≤ 7) :
    (usercmd PCSET RSC_LEDS val coreId st cn plen txret fresh).st.dev.rgb = v ∧
    Effect.txPkt
        { op := PktOp.write, auto := AutoFlag.autoInc, core := coreId,
          reg := S7_REG_LEDS, count := 1, data := [v] }
      ∈ (usercmd PCSET RSC_LEDS val coreId st cn plen txret fresh).effects ∧
    (usercmd PCGET RSC_LEDS "" coreId
        (usercmd PCSET RSC_LEDS val coreId st cn plen txret fresh).st
        cn2 plen2 txret2 fresh).buf = hexStr v ++ "\n" ∧
    (usercmd PCGET RSC_LEDS "" coreId
        (noAck (usercmd PCSET RSC_LEDS val coreId st cn plen txret fresh).st).1
        cn2 plen2 txret2 fresh).buf = hexStr v ++ "\n" := by
  have hst := usercmd_pcset_rgb_st val v coreId st cn plen txret fresh hv h7
  have heff := usercmd_pcset_rgb_effects val v coreId st cn plen txret fresh hv h7
  have hrgb : (usercmd PCSET RSC_LEDS val coreId st cn plen txret fresh).st.dev.rgb = v := by
    rw [hst]
    simpa using board2tofpga_rgb coreId { st.dev with rgb := v } txret fresh
  refine ⟨hrgb, ?_, ?_, ?_⟩
  · rw [heff]
    simpa using board2tofpga_tx coreId { st.dev with rgb := v } txret fresh
  · rw [usercmd_pcget_rgb, hrgb]
  · rw [noAck, usercmd_pcget_rgb, hrgb]

/-- Witness for C4 at the concrete input of scenario D: pcset rgb 3 whose
transmit fails, followed by the timeout; the later pcget still returns 3. -/
theorem C4_desired_state_no_rollback_witness :
    (Cmods7.usercmd PCSET Cmods7.RSC_LEDS "3" 4 s7a 3 100 1 7).st.dev.rgb = 3 ∧
    Effect.txPkt
        { op := PktOp.write, auto := AutoFlag.autoInc, core := 4,
          reg := Cmods7.S7_REG_LEDS, count := 1, data := [3] }
      ∈ (Cmods7.usercmd PCSET Cmods7.RSC_LEDS "3" 4 s7a 3 100 1 7).effects ∧
    (Cmods7.usercmd PCGET Cmods7.RSC_LEDS "" 4
        (Cmods7.usercmd PCSET Cmods7.RSC_LEDS "3" 4 s7a 3 100 1 7).st
        2 100 0 7).buf = hexStr 3 ++ "\n" ∧
    (Cmods7.usercmd PCGET Cmods7.RSC_LEDS "" 4
        (Cmods7.noAck (Cmods7.usercmd PCSET Cmods7.RSC_LEDS "3" 4 s7a 3 100 1 7).st).1
        2 100 0 7).buf = hexStr 3 ++ "\n" :=
  C4_desired_state_no_rollback s7a "3" 3 4 100 100 3 2 1 0 7 (by decide) (by decide)

open Cmods7 in
/-- C5.  Invalid-value atomicity: a pcset of the cmods7 rgb resource whose
value does not scan as hex, or scans to a value above 7, writes the E_BDVAL
error string into buf, performs no external action (no packet, no timer),
and leaves the whole driver state unchanged. -/
theorem C5_invalid_value_atomicity (st : S7State) (val : String)
    (coreId plen : Nat) (cn : Int) (txret : Int) (fresh : Nat)
    (hbad : scanHex val = none ∨ ∃ v, scanHex val = some v ∧ 7 < v) :
    (usercmd PCSET RSC_LEDS val coreId st cn plen txret fresh).st = st ∧
    (usercmd PCSET RSC_LEDS val coreId st cn plen txret fresh).buf
      = E_BDVAL_fmt FN_LEDS ∧
    (usercmd PCSET RSC_LEDS val coreId st cn plen txret fresh).effects = [] := by
  rcases hbad with hnone | ⟨v, hv, h7⟩
  · simp [usercmd, PCSET, RSC_LEDS, hnone]
  · simp [usercmd, PCSET, RSC_LEDS, hv, h7]

/-- Witness for C5 at the concrete input of scenario C: pcset rgb 9 is
rejected with E_BDVAL and changes nothing. -/
theorem C5_invalid_value_atomicity_witness :
    (Cmods7.usercmd PCSET Cmods7.RSC_LEDS "9" 4 s7a 3 100 0 7).st = s7a ∧
    (Cmods7.usercmd PCSET Cmods7.RSC_LEDS "9" 4 s7a 3 100 0 7).buf
      = E_BDVAL_fmt Cmods7.FN_LEDS ∧
    (Cmods7.usercmd PCSET Cmods7.RSC_LEDS "9" 4 s7a 3 100 0 7).effects = [] :=
  C5_invalid_value_atomicity s7a "9" 4 100 3 0 7 (Or.inr ⟨9, by decide, by decide⟩)

theorem castChar_small (n : Int) (h0 : 0 ≤ n) (h1 : n < 128) : castChar n = n := by
  unfold castChar
  have hm : n % 256 = n := Int.emod_eq_of_lt h0 (by omega)
  rw [hm, if_neg (by omega)]

namespace Cmods7

theorem usercmd_pcget_buttons_st (coreId : Nat) (st : S7State) (cn : Int)
    (plen fresh : Nat) (hpt : st.dev.ptimer = 0) :
    (usercmd PCGET RSC_BUTTONS "" coreId st cn plen 0 fresh).st.dev.ptimer = fresh ∧
    (usercmd PCGET RSC_BUTTONS "" coreId st cn plen 0 fresh).st.rscButtons.uilock
      = castChar cn ∧
    (usercmd PCGET RSC_BUTTONS "" coreId st cn plen 0 fresh).st.rscButtons.bkey
      = st.rscButtons.bkey ∧
    (usercmd PCGET RSC_BUTTONS "" coreId st cn plen 0 fresh).buf = "" ∧
    (usercmd PCGET RSC_BUTTONS "" coreId st cn plen 0 fresh).plen = 0 ∧
    (usercmd PCGET RSC_BUTTONS "" coreId st cn plen 0 fresh).effects
      = [Effect.txPkt
           { op := PktOp.read, auto := AutoFlag.autoInc, core := coreId,
             reg := S7_REG_BUTTONS, count := 1, data := [] },
         Effect.armTimerE fresh] := by
  simp [usercmd, PCGET, PCSET, RSC_BUTTONS, RSC_LEDS, RSC_DRIVLIST, hpt]

end Cmods7

open Cmods7 in
/-- C3.  No lock release on timeout: after a pcget of the cmods7 buttons
resource locks the resource to the requesting session and arms the watchdog,
the timeout handler noAck leaves the entire state, including the uilock,
unchanged, delivers nothing to any session, and emits only the log entry. -/
theorem C3_no_lock_release_on_timeout (st : S7State) (coreId plen fresh : Nat)
    (cn : Int) (hpt : st.dev.ptimer = 0) :
    (noAck (usercmd PCGET RSC_BUTTONS "" coreId st cn plen 0 fresh).st).1
      = (usercmd PCGET RSC_BUTTONS "" coreId st cn plen 0 fresh).st ∧
    (noAck (usercmd PCGET RSC_BUTTONS "" coreId st cn plen 0 fresh).st).1.rscButtons.uilock
      = castChar cn ∧
    (noAck (usercmd PCGET RSC_BUTTONS "" coreId st cn plen 0 fresh).st).2
      = [Effect.logMsg E_NOACK] ∧
    (∀ s c, Effect.sendUI s c ∉
      (noAck (usercmd PCGET RSC_BUTTONS "" coreId st cn plen 0 fresh).st).2) := by
  have h := usercmd_pcget_buttons_st coreId st cn plen fresh hpt
  refine ⟨rfl, h.2.1, rfl, ?_⟩
  intro s c
  simp [noAck]

/-- Witness for C3: session 3 issues pcget buttons from the freshly
initialized state, the watchdog (handle 7) fires, and uilock still names
session 3 while the only effect is the log entry. -/
theorem C3_no_lock_release_on_timeout_witness :
    (Cmods7.noAck
        (Cmods7.usercmd PCGET Cmods7.RSC_BUTTONS "" 4 s7a 3 100 0 7).st).1
      = (Cmods7.usercmd PCGET Cmods7.RSC_BUTTONS "" 4 s7a 3 100 0 7).st ∧
    (Cmods7.noAck
        (Cmods7.usercmd PCGET Cmods7.RSC_BUTTONS "" 4 s7a 3 100 0 7).st).1.rscButtons.uilock
      = castChar 3 ∧
    (Cmods7.noAck
        (Cmods7.usercmd PCGET Cmods7.RSC_BUTTONS "" 4 s7a 3 100 0 7).st).2
      = [Effect.logMsg E_NOACK] ∧
    (∀ s c, Effect.sendUI s c ∉
      (Cmods7.noAck
        (Cmods7.usercmd PCGET Cmods7.RSC_BUTTONS "" 4 s7a 3 100 0 7).st).2) :=
  C3_no_lock_release_on_timeout s7a 4 100 7 3 (by decide)

open Cmods7 in
/-- C6.  Button read round trip (scenario A): pcget buttons transmits one
read packet with reg 0 and count 1, arms the watchdog, locks the buttons
resource to the requesting session and produces no immediate output; the
later non-autosend reply with reg 0, count 1 and data 0x02 delivers the
string 2 followed by a newline to exactly that session, clears the uilock
to -1, and cancels and clears the timer. -/
theorem C6_button_read_round_trip (st : S7State) (coreId plen fresh : Nat)
    (cn : Int) (subsRemain : Bool) (hpt : st.dev.ptimer = 0) (_hfresh : fresh ≠ 0)
    (hcn0 : 0 ≤ cn) (hcn : cn < 128) :
    (usercmd PCGET RSC_BUTTONS "" coreId st cn plen 0 fresh).effects
      = [Effect.txPkt
           { op := PktOp.read, auto := AutoFlag.autoInc, core := coreId,
             reg := S7_REG_BUTTONS, count := 1, data := [] },
         Effect.armTimerE fresh] ∧
    (usercmd PCGET RSC_BUTTONS "" coreId st cn plen 0 fresh).st.dev.ptimer = fresh ∧
    (usercmd PCGET RSC_BUTTONS "" coreId st cn plen 0 fresh).st.rscButtons.uilock = cn ∧
    (usercmd PCGET RSC_BUTTONS "" coreId st cn plen 0 fresh).buf = "" ∧
    (usercmd PCGET RSC_BUTTONS "" coreId st cn plen 0 fresh).plen = 0 ∧
    (packet_hdlr (usercmd PCGET RSC_BUTTONS "" coreId st cn plen 0 fresh).st
        { op := PktOp.read, auto := AutoFlag.autoInc, core := coreId,
          reg := 0, count := 1, data := [2] } subsRemain).2
      = [Effect.sendUI "2\n" cn, Effect.promptUI cn, Effect.delTimerE fresh] ∧
    (packet_hdlr (usercmd PCGET RSC_BUTTONS "" coreId st cn plen 0 fresh).st
        { op := PktOp.read, auto := AutoFlag.autoInc, core := coreId,
          reg := 0, count := 1, data := [2] } subsRemain).1.rscButtons.uilock = -1 ∧
    (packet_hdlr (usercmd PCGET RSC_BUTTONS "" coreId st cn plen 0 fresh).st
        { op := PktOp.read, auto := AutoFlag.autoInc, core := coreId,
          reg := 0, count := 1, data := [2] } subsRemain).1.dev.ptimer = 0 := by
  have hcast : castChar cn = cn := castChar_small cn hcn0 hcn
  have h2 : hexStr 2 ++ "\n" = "2\n" := rfl
  simp [usercmd, packet_hdlr, PCGET, PCSET, RSC_BUTTONS, RSC_LEDS, RSC_DRIVLIST,
    S7_REG_BUTTONS, S7_REG_DRIVLIST, NUM_CORE, hpt, hcast, h2]

/-- Witness for C6 at the concrete inputs of scenario A: session 3,
watchdog handle 7, reply data 0x02. -/
theorem C6_button_read_round_trip_witness :
    (Cmods7.usercmd PCGET Cmods7.RSC_BUTTONS "" 4 s7a 3 100 0 7).effects
      = [Effect.txPkt
           { op := PktOp.read, auto := AutoFlag.autoInc, core := 4,
             reg := Cmods7.S7_REG_BUTTONS, count := 1, data := [] },
         Effect.armTimerE 7] ∧
    (Cmods7.usercmd PCGET Cmods7.RSC_BUTTONS "" 4 s7a 3 100 0 7).st.dev.ptimer = 7 ∧
    (Cmods7.usercmd PCGET Cmods7.RSC_BUTTONS "" 4 s7a 3 100 0 7).st.rscButtons.uilock = 3 ∧
    (Cmods7.usercmd PCGET Cmods7.RSC_BUTTONS "" 4 s7a 3 100 0 7).buf = "" ∧
    (Cmods7.usercmd PCGET Cmods7.RSC_BUTTONS "" 4 s7a 3 100 0 7).plen = 0 ∧
    (Cmods7.packet_hdlr (Cmods7.usercmd PCGET Cmods7.RSC_BUTTONS "" 4 s7a 3 100 0 7).st
        { op := PktOp.read, auto := AutoFlag.autoInc, core := 4,
          reg := 0, count := 1, data := [2] } true).2
      = [Effect.sendUI "2\n" 3, Effect.promptUI 3, Effect.delTimerE 7] ∧
    (Cmods7.packet_hdlr (Cmods7.usercmd PCGET Cmods7.RSC_BUTTONS "" 4 s7a 3 100 0 7).st
        { op := PktOp.read, auto := AutoFlag.autoInc, core := 4,
          reg := 0, count := 1, data := [2] } true).1.rscButtons.uilock = -1 ∧
    (Cmods7.packet_hdlr (Cmods7.usercmd PCGET Cmods7.RSC_BUTTONS "" 4 s7a 3 100 0 7).st
        { op := PktOp.read, auto := AutoFlag.autoInc, core := 4,
          reg := 0, count := 1, data := [2] } true).1.dev.ptimer = 0 :=
  C6_button_read_round_trip s7a 4 100 7 3 true (by decide) (by decide)
    (by decide) (by decide)

open Cmods7 in
/-- C1 counterexample.  The claim says the timeout handler clears the
driver's timer handle (ptimer returns to 0).  At the concrete input below a
pcget buttons arms the watchdog with handle 7 and the timer then fires; the
resulting ptimer is still 7, not 0. -/
theorem C1_cex_timer_handle_not_cleared :
    (fireTimeout
        { st := (usercmd PCGET RSC_BUTTONS "" 4 s7a 3 100 0 7).st,
          queue := [7] }).1.st.dev.ptimer = 7 ∧ (7 : Nat) ≠ 0 := by
  decide

open Cmods7 in
/-- C1 as amended.  When the watchdog armed by a pcget buttons send expires
with no reply classified, the one-shot timeout runs exactly once (a second
expiry event changes nothing and emits nothing), logs exactly one
missing-acknowledgment diagnostic, arms no new timer and retries nothing;
but it leaves the driver state, including the ptimer handle, entirely
unchanged: ptimer keeps the stale non-zero handle instead of returning
to 0. -/
theorem C1_timeout_terminality_amended (st : S7State) (coreId plen fresh : Nat)
    (cn : Int) (hpt : st.dev.ptimer = 0) (_hfresh : fresh ≠ 0) :
    (fireTimeout
        { st := (usercmd PCGET RSC_BUTTONS "" coreId st cn plen 0 fresh).st,
          queue := [fresh] }).2 = [Effect.logMsg E_NOACK] ∧
    (fireTimeout
        { st := (usercmd PCGET RSC_BUTTONS "" coreId st cn plen 0 fresh).st,
          queue := [fresh] }).1.queue = [] ∧
    fireTimeout
        (fireTimeout
          { st := (usercmd PCGET RSC_BUTTONS "" coreId st cn plen 0 fresh).st,
            queue := [fresh] }).1
      = ((fireTimeout
          { st := (usercmd PCGET RSC_BUTTONS "" coreId st cn plen 0 fresh).st,
            queue := [fresh] }).1, []) ∧
    (fireTimeout
        { st := (usercmd PCGET RSC_BUTTONS "" coreId st cn plen 0 fresh).st,
          queue := [fresh] }).1.st
      = (usercmd PCGET RSC_BUTTONS "" coreId st cn plen 0 fresh).st ∧
    (fireTimeout
        { st := (usercmd PCGET RSC_BUTTONS "" coreId st cn plen 0 fresh).st,
          queue := [fresh] }).1.st.dev.ptimer = fresh ∧
    (∀ h, Effect.armTimerE h ∉
      (fireTimeout
        { st := (usercmd PCGET RSC_BUTTONS "" coreId st cn plen 0 fresh).st,
          queue := [fresh] }).2) ∧
    (∀ p, Effect.txPkt p ∉
      (fireTimeout
        { st := (usercmd PCGET RSC_BUTTONS "" coreId st cn plen 0 fresh).st,
          queue := [fresh] }).2) := by
  have h := usercmd_pcget_buttons_st coreId st cn plen fresh hpt
  refine ⟨rfl, rfl, rfl, rfl, ?_, ?_, ?_⟩
  · exact h.1
  · intro hh
    simp [fireTimeout, noAck]
  · intro p
    simp [fireTimeout, noAck]

/-- Witness for the amended C1 at the concrete inputs of the
counterexample: session 3, watchdog handle 7. -/
theorem C1_timeout_terminality_witness :
    (Cmods7.fireTimeout
        { st := (Cmods7.usercmd PCGET Cmods7.RSC_BUTTONS "" 4 s7a 3 100 0 7).st,
          queue := [7] }).2 = [Effect.logMsg E_NOACK] ∧
    (Cmods7.fireTimeout
        { st := (Cmods7.usercmd PCGET Cmods7.RSC_BUTTONS "" 4 s7a 3 100 0 7).st,
          queue := [7] }).1.queue = [] ∧
    Cmods7.fireTimeout
        (Cmods7.fireTimeout
          { st := (Cmods7.usercmd PCGET Cmods7.RSC_BUTTONS "" 4 s7a 3 100 0 7).st,
            queue := [7] }).1
      = ((Cmods7.fireTimeout
          { st := (Cmods7.usercmd PCGET Cmods7.RSC_BUTTONS "" 4 s7a 3 100 0 7).st,
            queue := [7] }).1, []) ∧
    (Cmods7.fireTimeout
        { st := (Cmods7.usercmd PCGET Cmods7.RSC_BUTTONS "" 4 s7a 3 100 0 7).st,
          queue := [7] }).1.st
      = (Cmods7.usercmd PCGET Cmods7.RSC_BUTTONS "" 4 s7a 3 100 0 7).st ∧
    (Cmods7.fireTimeout
        { st := (Cmods7.usercmd PCGET Cmods7.RSC_BUTTONS "" 4 s7a 3 100 0 7).st,
          queue := [7] }).1.st.dev.ptimer = 7 ∧
    (∀ h, Effect.armTimerE h ∉
      (Cmods7.fireTimeout
        { st := (Cmods7.usercmd PCGET Cmods7.RSC_BUTTONS "" 4 s7a 3 100 0 7).st,
          queue := [7] }).2) ∧
    (∀ p, Effect.txPkt p ∉
      (Cmods7.fireTimeout
        { st := (Cmods7.usercmd PCGET Cmods7.RSC_BUTTONS "" 4 s7a 3 100 0 7).st,
          queue := [7] }).2) :=
  C1_timeout_terminality_amended s7a 4 100 7 3 (by decide) (by decide)

open Cmods7 in
/-- C2 counterexample.  The claim says a non-autosend packet matching
neither cmods7 reply shape is never passed to bcst_ui even when the buttons
bkey is non-zero.  At the concrete input below (non-autosend read reply
with reg 5 and count 1, buttons bkey 5, lastbutton 0) the handler does hand
the payload to bcst_ui and also mutates lastbutton. -/
theorem C2_cex_mismatch_broadcast :
    s7sub.rscButtons.bkey ≠ 0 ∧
    mismatchPkt.auto ≠ AutoFlag.autoData ∧
    (packet_hdlr s7sub mismatchPkt true).2 = [Effect.bcstUI "2\n"] ∧
    (packet_hdlr s7sub mismatchPkt true).1.dev.lastbutton = 2 := by
  decide

open Cmods7 in
/-- C2 as amended.  In rcc8 a non-write packet matching no expected shape
is logged and discarded with no delivery and no state change; in cmods7,
however, a non-autosend read packet matching neither the drivlist shape
(reg 0x40, count 32) nor the buttons shape (reg 0x00, count 1) falls
through to the broadcast branch: when the buttons bkey is non-zero and the
first data byte differs from lastbutton it is handed to bcst_ui, and
lastbutton is updated. -/
theorem C2_mismatch_discard_amended :
    (∀ (st : Rcc8.RCC8State) (pkt : PC_PKT) (subs : Bool),
      pkt.op ≠ PktOp.write → (pkt.reg ≠ Rcc8.RCC_DATA ∨ pkt.count ≠ Rcc8.NPINS) →
      Rcc8.packet_hdlr st pkt subs
        = (st, [Effect.logMsg "invalid rcc packet from board to host"])) ∧
    (∀ (st : S7State) (pkt : PC_PKT) (subs : Bool),
      pkt.op = PktOp.read → pkt.auto = AutoFlag.autoInc →
      ¬(pkt.reg = S7_REG_DRIVLIST ∧ pkt.count = 2 * NUM_CORE) →
      ¬(pkt.reg = S7_REG_BUTTONS ∧ pkt.count = 1) →
      st.rscButtons.bkey ≠ 0 → st.dev.lastbutton ≠ pkt.data.getD 0 0 →
      (packet_hdlr st pkt subs).2
          = [Effect.bcstUI (hexStr (pkt.data.getD 0 0) ++ "\n")] ∧
        (packet_hdlr st pkt subs).1.dev.lastbutton = pkt.data.getD 0 0) := by
  constructor
  · intro st pkt subs hop hmm
    rcases hmm with h | h <;> simp [Rcc8.packet_hdlr, hop, h]
  · intro st pkt subs hop hauto hnd hnb hbk hlb
    have hw : ¬pkt.op = PktOp.write := by simp [hop]
    have hd : ¬(pkt.auto ≠ AutoFlag.autoData ∧ pkt.reg = S7_REG_DRIVLIST ∧
        pkt.count = 2 * NUM_CORE) := by
      rintro ⟨-, h1, h2⟩
      exact hnd ⟨h1, h2⟩
    have hb : ¬(pkt.auto ≠ AutoFlag.autoData ∧ pkt.reg = S7_REG_BUTTONS ∧
        pkt.count = 1) := by
      rintro ⟨-, h1, h2⟩
      exact hnb ⟨h1, h2⟩
    have hlb' : ¬st.dev.lastbutton = pkt.data.getD 0 0 := hlb
    simp only [List.getD, List.get?_eq_getElem?] at hlb'
    simp [packet_hdlr, hw, hd, hb, hbk, hlb']

/-- Witness for the amended C2: the rcc8 part at a mismatched reg 3 read,
and the cmods7 part at the counterexample packet. -/
theorem C2_mismatch_discard_witness :
    Rcc8.packet_hdlr rcc8a
        { op := PktOp.read, auto := AutoFlag.autoInc, core := 1, reg := 3,
          count := 8, data := [1, 2, 3, 4, 5, 6, 7, 8] } true
      = (rcc8a, [Effect.logMsg "invalid rcc packet from board to host"]) ∧
    (Cmods7.packet_hdlr s7sub mismatchPkt true).2
        = [Effect.bcstUI (hexStr (mismatchPkt.data.getD 0 0) ++ "\n")] ∧
      (Cmods7.packet_hdlr s7sub mismatchPkt true).1.dev.lastbutton
        = mismatchPkt.data.getD 0 0 :=
  ⟨C2_mismatch_discard_amended.1 rcc8a
      { op := PktOp.read, auto := AutoFlag.autoInc, core := 1, reg := 3,
        count := 8, data := [1, 2, 3, 4, 5, 6, 7, 8] } true
      (by decide) (by decide),
   C2_mismatch_discard_amended.2 s7sub mismatchPkt true
      (by decide) (by decide) (by decide) (by decide) (by decide) (by decide)⟩

open Cmods7 in
/-- C7 counterexample.  The claim says every autosend packet for a
broadcastable resource with non-zero bkey has its payload handed to
bcst_ui.  At the concrete input below (cmods7 autosend button update whose
data byte 2 equals the recorded lastbutton, buttons bkey 5) the handler
performs no delivery at all. -/
theorem C7_cex_duplicate_suppressed :
    s7dup.rscButtons.bkey ≠ 0 ∧
    autoBtnPkt.auto = AutoFlag.autoData ∧
    (packet_hdlr s7dup autoBtnPkt true).2 = [] := by
  decide

open Cmods7 in
/-- C7 as amended.  An autosend update for a resource whose bkey is zero
produces zero deliveries in both drivers; with a non-zero bkey the payload
is formatted and handed to bcst_ui, except that cmods7 opts into duplicate
suppression and delivers nothing when the data byte equals lastbutton; and
the drivers never clear bkey themselves: it stays non-zero until the
fanout (bcst_ui) reports that no subscribers remain. -/
theorem C7_broadcast_gating_amended :
    (∀ (st : S7State) (pkt : PC_PKT) (subs : Bool),
      pkt.op = PktOp.read → pkt.auto = AutoFlag.autoData → st.rscButtons.bkey = 0 →
      packet_hdlr st pkt subs = (st, [])) ∧
    (∀ (st : Rcc8.RCC8State) (pkt : PC_PKT) (subs : Bool),
      pkt.op = PktOp.read → pkt.reg = Rcc8.RCC_DATA → pkt.count = Rcc8.NPINS →
      st.rscData.bkey = 0 → Rcc8.packet_hdlr st pkt subs = (st, [])) ∧
    (∀ (st : Rcc8.RCC8State) (pkt : PC_PKT) (subs : Bool),
      pkt.op = PktOp.read → pkt.reg = Rcc8.RCC_DATA → pkt.count = Rcc8.NPINS →
      st.rscData.bkey ≠ 0 →
      (Rcc8.packet_hdlr st pkt subs).2
          = [Effect.bcstUI (String.intercalate " "
              ((List.range Rcc8.NPINS).map (fun i => hex2 (pkt.data.getD i 0))) ++ "\n")] ∧
        (Rcc8.packet_hdlr st pkt subs).1.rscData.bkey
          = (if subs then st.rscData.bkey else 0)) ∧
    (∀ (st : S7State) (pkt : PC_PKT) (subs : Bool),
      pkt.op = PktOp.read → pkt.auto = AutoFlag.autoData → st.rscButtons.bkey ≠ 0 →
      st.dev.lastbutton ≠ pkt.data.getD 0 0 →
      (packet_hdlr st pkt subs).2
          = [Effect.bcstUI (hexStr (pkt.data.getD 0 0) ++ "\n")] ∧
        (packet_hdlr st pkt subs).1.rscButtons.bkey
          = (if subs then st.rscButtons.bkey else 0)) ∧
    (∀ (st : S7State) (pkt : PC_PKT) (subs : Bool),
      pkt.op = PktOp.read → pkt.auto = AutoFlag.autoData → st.rscButtons.bkey ≠ 0 →
      st.dev.lastbutton = pkt.data.getD 0 0 →
      (packet_hdlr st pkt subs).2 = [] ∧
        (packet_hdlr st pkt subs).1.rscButtons.bkey = st.rscButtons.bkey) := by
  refine ⟨?_, ?_, ?_, ?_, ?_⟩
  · intro st pkt subs hop hauto hbk
    have hw : ¬pkt.op = PktOp.write := by simp [hop]
    simp [packet_hdlr, hw, hauto, hbk]
  · intro st pkt subs hop hreg hcnt hbk
    have hw : ¬pkt.op = PktOp.write := by simp [hop]
    simp [Rcc8.packet_hdlr, hw, hreg, hcnt, hbk]
  · intro st pkt subs hop hreg hcnt hbk
    have hw : ¬pkt.op = PktOp.write := by simp [hop]
    simp [Rcc8.packet_hdlr, hw, hreg, hcnt, hbk]
  · intro st pkt subs hop hauto hbk hlb
    have hw : ¬pkt.op = PktOp.write := by simp [hop]
    have hlb' : ¬st.dev.lastbutton = pkt.data.getD 0 0 := hlb
    simp only [List.getD, List.get?_eq_getElem?] at hlb'
    simp [packet_hdlr, hw, hauto, hbk, hlb']
  · intro st pkt subs hop hauto hbk hlb
    have hw : ¬pkt.op = PktOp.write := by simp [hop]
    have hlb' : st.dev.lastbutton = pkt.data.getD 0 0 := hlb
    simp only [List.getD, List.get?_eq_getElem?] at hlb'
    simp [packet_hdlr, hw, hauto, hbk, hlb']

/-- Witness for the amended C7: the rcc8 gate at bkey 0 and at bkey 3 with
a surviving subscriber, and the cmods7 duplicate exception. -/
theorem C7_broadcast_gating_witness :
    Rcc8.packet_hdlr rcc8a rccSamplePkt true = (rcc8a, []) ∧
    (Rcc8.packet_hdlr rcc8sub rccSamplePkt true).2
        = [Effect.bcstUI (String.intercalate " "
            ((List.range Rcc8.NPINS).map (fun i => hex2 (rccSamplePkt.data.getD i 0)))
            ++ "\n")] ∧
      (Rcc8.packet_hdlr rcc8sub rccSamplePkt true).1.rscData.bkey
        = (if true then rcc8sub.rscData.bkey else 0) ∧
    (Cmods7.packet_hdlr s7dup autoBtnPkt true).2 = [] ∧
      (Cmods7.packet_hdlr s7dup autoBtnPkt true).1.rscButtons.bkey
        = s7dup.rscButtons.bkey :=
  ⟨C7_broadcast_gating_amended.2.1 rcc8a rccSamplePkt true
      (by decide) (by decide) (by decide) (by decide),
   (C7_broadcast_gating_amended.2.2.1 rcc8sub rccSamplePkt true
      (by decide) (by decide) (by decide) (by decide)).1,
   (C7_broadcast_gating_amended.2.2.1 rcc8sub rccSamplePkt true
      (by decide) (by decide) (by decide) (by decide)).2,
   (C7_broadcast_gating_amended.2.2.2.2 s7dup autoBtnPkt true
      (by decide) (by decide) (by decide) (by decide)).1,
   (C7_broadcast_gating_amended.2.2.2.2 s7dup autoBtnPkt true
      (by decide) (by decide) (by decide) (by decide)).2⟩

open Cmods7 in
/-- C8.  Duplicate suppression is per-resource opt-in: in cmods7 an
autosend button packet whose data byte equals lastbutton produces zero
deliveries while lastbutton is re-recorded, and a differing value is
broadcast and then recorded; in rcc8 no comparison with a previous payload
exists, so a gated valid autosend is broadcast, and repeating the identical
packet immediately is broadcast again. -/
theorem C8_duplicate_suppression_opt_in :
    (∀ (st : S7State) (pkt : PC_PKT) (subs : Bool),
      pkt.op = PktOp.read → pkt.auto = AutoFlag.autoData → st.rscButtons.bkey ≠ 0 →
      st.dev.lastbutton = pkt.data.getD 0 0 →
      (packet_hdlr st pkt subs).2 = [] ∧
        (packet_hdlr st pkt subs).1.dev.lastbutton = pkt.data.getD 0 0) ∧
    (∀ (st : S7State) (pkt : PC_PKT) (subs : Bool),
      pkt.op = PktOp.read → pkt.auto = AutoFlag.autoData → st.rscButtons.bkey ≠ 0 →
      st.dev.lastbutton ≠ pkt.data.getD 0 0 →
      (packet_hdlr st pkt subs).2
          = [Effect.bcstUI (hexStr (pkt.data.getD 0 0) ++ "\n")] ∧
        (packet_hdlr st pkt subs).1.dev.lastbutton = pkt.data.getD 0 0) ∧
    (∀ (st : Rcc8.RCC8State) (pkt : PC_PKT),
      pkt.op = PktOp.read → pkt.reg = Rcc8.RCC_DATA → pkt.count = Rcc8.NPINS →
      st.rscData.bkey ≠ 0 →
      (Rcc8.packet_hdlr st pkt true).2
          = [Effect.bcstUI (String.intercalate " "
              ((List.range Rcc8.NPINS).map (fun i => hex2 (pkt.data.getD i 0))) ++ "\n")] ∧
        (Rcc8.packet_hdlr (Rcc8.packet_hdlr st pkt true).1 pkt true).2
          = [Effect.bcstUI (String.intercalate " "
              ((List.range Rcc8.NPINS).map (fun i => hex2 (pkt.data.getD i 0))) ++ "\n")]) := by
  refine ⟨?_, ?_, ?_⟩
  · intro st pkt subs hop hauto hbk hlb
    have hw : ¬pkt.op = PktOp.write := by simp [hop]
    have hlb' : st.dev.lastbutton = pkt.data.getD 0 0 := hlb
    simp only [List.getD, List.get?_eq_getElem?] at hlb'
    simp [packet_hdlr, hw, hauto, hbk, hlb']
  · intro st pkt subs hop hauto hbk hlb
    have hw : ¬pkt.op = PktOp.write := by simp [hop]
    have hlb' : ¬st.dev.lastbutton = pkt.data.getD 0 0 := hlb
    simp only [List.getD, List.get?_eq_getElem?] at hlb'
    simp [packet_hdlr, hw, hauto, hbk, hlb']
  · intro st pkt hop hreg hcnt hbk
    have hw : ¬pkt.op = PktOp.write := by simp [hop]
    have hone : Rcc8.packet_hdlr st pkt true
        = (st, [Effect.bcstUI (String.intercalate " "
            ((List.range Rcc8.NPINS).map (fun i => hex2 (pkt.data.getD i 0))) ++ "\n")]) := by
      simp [Rcc8.packet_hdlr, hw, hreg, hcnt, hbk]
    constructor
    · rw [hone]
    · simp only [hone]

/-- Witness for C8: the duplicate and the differing autosend button update
in cmods7, and the repeated identical sample in rcc8. -/
theorem C8_duplicate_suppression_witness :
    (Cmods7.packet_hdlr s7dup autoBtnPkt true).2 = [] ∧
      (Cmods7.packet_hdlr s7dup autoBtnPkt true).1.dev.lastbutton
        = autoBtnPkt.data.getD 0 0 ∧
    (Cmods7.packet_hdlr s7sub autoBtnPkt true).2
        = [Effect.bcstUI (hexStr (autoBtnPkt.data.getD 0 0) ++ "\n")] ∧
      (Cmods7.packet_hdlr s7sub autoBtnPkt true).1.dev.lastbutton
        = autoBtnPkt.data.getD 0 0 ∧
    (Rcc8.packet_hdlr rcc8sub rccSamplePkt true).2
        = [Effect.bcstUI (String.intercalate " "
            ((List.range Rcc8.NPINS).map (fun i => hex2 (rccSamplePkt.data.getD i 0)))
            ++ "\n")] ∧
      (Rcc8.packet_hdlr (Rcc8.packet_hdlr rcc8sub rccSamplePkt true).1
          rccSamplePkt true).2
        = [Effect.bcstUI (String.intercalate " "
            ((List.range Rcc8.NPINS).map (fun i => hex2 (rccSamplePkt.data.getD i 0)))
            ++ "\n")] :=
  ⟨(C8_duplicate_suppression_opt_in.1 s7dup autoBtnPkt true
      (by decide) (by decide) (by decide) (by decide)).1,
   (C8_duplicate_suppression_opt_in.1 s7dup autoBtnPkt true
      (by decide) (by decide) (by decide) (by decide)).2,
   (C8_duplicate_suppression_opt_in.2.1 s7sub autoBtnPkt true
      (by decide) (by decide) (by decide) (by decide)).1,
   (C8_duplicate_suppression_opt_in.2.1 s7sub autoBtnPkt true
      (by decide) (by decide) (by decide) (by decide)).2,
   (C8_duplicate_suppression_opt_in.2.2 rcc8sub rccSamplePkt
      (by decide) (by decide) (by decide) (by decide)).1,
   (C8_duplicate_suppression_opt_in.2.2 rcc8sub rccSamplePkt
      (by decide) (by decide) (by decide) (by decide)).2⟩

namespace Cmods7

theorem board2tofpga_ptimer_stable (coreId : Nat) (dev : S7DEV) (txret : Int)
    (fresh : Nat) (hp : dev.ptimer ≠ 0) :
    (board2tofpga coreId dev txret fresh).1 = dev ∧
    ∀ h, Effect.armTimerE h ∉ (board2tofpga coreId dev txret fresh).2.1 := by
  simp [board2tofpga, hp]

theorem getdriverlist_ptimer_stable (coreId : Nat) (dev : S7DEV) (fresh : Nat)
    (hp : dev.ptimer ≠ 0) :
    (getdriverlist coreId dev fresh).1 = dev ∧
    ∀ h, Effect.armTimerE h ∉ (getdriverlist coreId dev fresh).2 := by
  simp [getdriverlist, hp]

theorem usercmd_ptimer_stable (cmd rscid : Nat) (val : String) (coreId : Nat)
    (st : S7State) (cn : Int) (plen : Nat) (txret : Int) (fresh : Nat)
    (hp : st.dev.ptimer ≠ 0) :
    (usercmd cmd rscid val coreId st cn plen txret fresh).st.dev.ptimer
      = st.dev.ptimer ∧
    ∀ h, Effect.armTimerE h ∉
      (usercmd cmd rscid val coreId st cn plen txret fresh).effects := by
  unfold usercmd
  split
  · cases hsc : scanHex val with
    | none => simp
    | some v =>
        by_cases h7 : 7 < v
        · simp [hsc, h7]
        · simp only [hsc, h7, if_false]
          split <;> simp [board2tofpga, hp]
  · split
    · simp
    · split
      · split
        · simp
        · simp [hp]
      · split
        · split <;> simp
        · simp

end Cmods7

theorem ps2xmit_ptimer_stable (cmd : Nat) (val : String) (coreId : Nat)
    (dev : Ps2.PS2DEV) (plen : Nat) (txret : Int) (fresh : Nat)
    (hp : dev.ptimer ≠ 0) :
    (Ps2.ps2xmit cmd val coreId dev plen txret fresh).dev = dev ∧
    ∀ h, Effect.armTimerE h ∉
      (Ps2.ps2xmit cmd val coreId dev plen txret fresh).effects := by
  unfold Ps2.ps2xmit
  split
  · simp
  · cases hsc : scanHex val with
    | none => simp
    | some x =>
        simp only [hsc]
        split <;> simp [hp]

theorem rcc8_sendconfig_ptimer_stable (coreId : Nat) (rdev : Rcc8.RCCDEV)
    (txret : Int) (fresh : Nat) (hp : rdev.ptimer ≠ 0) :
    (Rcc8.sendconfigtofpga coreId rdev txret fresh).1 = rdev ∧
    ∀ h, Effect.armTimerE h ∉ (Rcc8.sendconfigtofpga coreId rdev txret fresh).2.2 := by
  unfold Rcc8.sendconfigtofpga
  split <;> simp [hp]

open Cmods7 in
/-- C9.  Watchdog non-replacement: on every send path of every driver a new
ack watchdog is stored only when the ptimer handle is 0; with a non-zero
handle p every send path (all three cmods7 paths through any usercmd
dispatch, board2tofpga and getdriverlist; the rcc8 config send; any ps2xmit
call; and the timer logic of every send site of runber, cvcc, dgspi,
patgen64, sndgen and vgaterm) leaves the existing handle unchanged and
performs no add_timer call. -/
theorem C9_watchdog_non_replacement (p fresh coreId plen cmd rscid : Nat)
    (txOk haveBytes : Bool) (st : S7State) (dev : S7DEV) (rdev : Rcc8.RCCDEV)
    (pdev : Ps2.PS2DEV) (cn : Int) (val : String) (txret : Int)
    (hp : p ≠ 0) (hdev : dev.ptimer = p) (hst : st.dev.ptimer = p)
    (hr : rdev.ptimer = p) (hpd : pdev.ptimer = p) :
    armIfIdle p fresh = p ∧
    (∀ q f, armIfIdle q f ≠ q → q = 0 ∧ armIfIdle q f = f) ∧
    (board2tofpga coreId dev txret fresh).1.ptimer = p ∧
    (∀ h, Effect.armTimerE h ∉ (board2tofpga coreId dev txret fresh).2.1) ∧
    (getdriverlist coreId dev fresh).1.ptimer = p ∧
    (∀ h, Effect.armTimerE h ∉ (getdriverlist coreId dev fresh).2) ∧
    (usercmd cmd rscid val coreId st cn plen txret fresh).st.dev.ptimer = p ∧
    (∀ h, Effect.armTimerE h ∉
      (usercmd cmd rscid val coreId st cn plen txret fresh).effects) ∧
    (Rcc8.sendconfigtofpga coreId rdev txret fresh).1.ptimer = p ∧
    (∀ h, Effect.armTimerE h ∉ (Rcc8.sendconfigtofpga coreId rdev txret fresh).2.2) ∧
    (Ps2.ps2xmit cmd val coreId pdev plen txret fresh).dev.ptimer = p ∧
    (∀ h, Effect.armTimerE h ∉ (Ps2.ps2xmit cmd val coreId pdev plen txret fresh).effects) ∧
    Runber.getswitches_ptimer p fresh txOk = p ∧
    Runber.runbertofpga_ptimer p fresh txOk = p ∧
    Cvcc.sendconfigtofpga_ptimer p fresh txOk = p ∧
    Dgspi.cb_data_ptimer p fresh haveBytes txOk = p ∧
    Patgen64.setpattern_ptimer p fresh txOk = p ∧
    Patgen64.setfreq_ptimer p fresh txOk = p ∧
    Patgen64.setlength_ptimer p fresh txOk = p ∧
    Sndgen.setconfig_ptimer p fresh txOk = p ∧
    Vgaterm.getchar_ptimer p fresh txOk = p ∧
    Vgaterm.getcursor_ptimer p fresh txOk = p ∧
    Vgaterm.sendstringtofpga_ptimer p fresh txOk = p ∧
    Vgaterm.sendcursortofpga_ptimer p fresh txOk = p ∧
    Vgaterm.sendattrtofpga_ptimer p fresh txOk = p := by
  have hdev' : dev.ptimer ≠ 0 := by rw [hdev]; exact hp
  have hst' : st.dev.ptimer ≠ 0 := by rw [hst]; exact hp
  have hr' : rdev.ptimer ≠ 0 := by rw [hr]; exact hp
  have hpd' : pdev.ptimer ≠ 0 := by rw [hpd]; exact hp
  have hb := board2tofpga_ptimer_stable coreId dev txret fresh hdev'
  have hg := getdriverlist_ptimer_stable coreId dev fresh hdev'
  have hu := usercmd_ptimer_stable cmd rscid val coreId st cn plen txret fresh hst'
  have hx := ps2xmit_ptimer_stable cmd val coreId pdev plen txret fresh hpd'
  have hs := rcc8_sendconfig_ptimer_stable coreId rdev txret fresh hr'
  refine ⟨by simp [armIfIdle, hp], ?_, by rw [hb.1]; exact hdev, hb.2,
    by rw [hg.1]; exact hdev, hg.2, by rw [hu.1]; exact hst, hu.2,
    by rw [hs.1]; exact hr, hs.2, by rw [hx.1]; exact hpd, hx.2,
    ?_, ?_, ?_, ?_, ?_, ?_, ?_, ?_, ?_, ?_, ?_, ?_, ?_⟩
  · intro q f hne
    by_cases hq : q = 0
    · exact ⟨hq, by simp [armIfIdle, hq]⟩
    · exact absurd (by simp [armIfIdle, hq]) hne
  all_goals
    simp [Runber.getswitches_ptimer, Runber.runbertofpga_ptimer,
      Cvcc.sendconfigtofpga_ptimer, Dgspi.cb_data_ptimer,
      Patgen64.setpattern_ptimer, Patgen64.setfreq_ptimer,
      Patgen64.setlength_ptimer, Sndgen.setconfig_ptimer,
      Vgaterm.getchar_ptimer, Vgaterm.getcursor_ptimer,
      Vgaterm.sendstringtofpga_ptimer, Vgaterm.sendcursortofpga_ptimer,
      Vgaterm.sendattrtofpga_ptimer, armIfIdle, hp]

/-- Witness for C9: handle 5 armed, fresh handle 8 offered, on concrete
states carrying ptimer 5. -/
theorem C9_watchdog_non_replacement_witness :
    armIfIdle 5 8 = 5 ∧
    (∀ q f, armIfIdle q f ≠ q → q = 0 ∧ armIfIdle q f = f) ∧
    (Cmods7.board2tofpga 4
        { lastbutton := 0, rgb := 3, ptimer := 5, drivlist := List.replicate 16 0 }
        0 8).1.ptimer = 5 ∧
    (∀ h, Effect.armTimerE h ∉ (Cmods7.board2tofpga 4
        { lastbutton := 0, rgb := 3, ptimer := 5, drivlist := List.replicate 16 0 }
        0 8).2.1) ∧
    (Cmods7.getdriverlist 4
        { lastbutton := 0, rgb := 3, ptimer := 5, drivlist := List.replicate 16 0 }
        8).1.ptimer = 5 ∧
    (∀ h, Effect.armTimerE h ∉ (Cmods7.getdriverlist 4
        { lastbutton := 0, rgb := 3, ptimer := 5, drivlist := List.replicate 16 0 }
        8).2) ∧
    (Cmods7.usercmd PCGET Cmods7.RSC_BUTTONS "" 4
        { dev := { lastbutton := 0, rgb := 3, ptimer := 5,
                   drivlist := List.replicate 16 0 },
          rscButtons := { bkey := 0, uilock := -1 },
          rscLeds := { bkey := 0, uilock := -1 },
          rscDrivlist := { bkey := 0, uilock := -1 } }
        3 100 0 8).st.dev.ptimer = 5 ∧
    (∀ h, Effect.armTimerE h ∉
      (Cmods7.usercmd PCGET Cmods7.RSC_BUTTONS "" 4
        { dev := { lastbutton := 0, rgb := 3, ptimer := 5,
                   drivlist := List.replicate 16 0 },
          rscButtons := { bkey := 0, uilock := -1 },
          rscLeds := { bkey := 0, uilock := -1 },
          rscDrivlist := { bkey := 0, uilock := -1 } }
        3 100 0 8).effects) ∧
    (Rcc8.sendconfigtofpga 4
        { update := 0, clksrc := 0, polarity := 0, ptimer := 5 } 0 8).1.ptimer = 5 ∧
    (∀ h, Effect.armTimerE h ∉ (Rcc8.sendconfigtofpga 4
        { update := 0, clksrc := 0, polarity := 0, ptimer := 5 } 0 8).2.2) ∧
    (Ps2.ps2xmit PCGET "" 4 { ptimer := 5 } 100 0 8).dev.ptimer = 5 ∧
    (∀ h, Effect.armTimerE h ∉
      (Ps2.ps2xmit PCGET "" 4 { ptimer := 5 } 100 0 8).effects) ∧
    Runber.getswitches_ptimer 5 8 true = 5 ∧
    Runber.runbertofpga_ptimer 5 8 true = 5 ∧
    Cvcc.sendconfigtofpga_ptimer 5 8 true = 5 ∧
    Dgspi.cb_data_ptimer 5 8 true true = 5 ∧
    Patgen64.setpattern_ptimer 5 8 true = 5 ∧
    Patgen64.setfreq_ptimer 5 8 true = 5 ∧
    Patgen64.setlength_ptimer 5 8 true = 5 ∧
    Sndgen.setconfig_ptimer 5 8 true = 5 ∧
    Vgaterm.getchar_ptimer 5 8 true = 5 ∧
    Vgaterm.getcursor_ptimer 5 8 true = 5 ∧
    Vgaterm.sendstringtofpga_ptimer 5 8 true = 5 ∧
    Vgaterm.sendcursortofpga_ptimer 5 8 true = 5 ∧
    Vgaterm.sendattrtofpga_ptimer 5 8 true = 5 :=
  C9_watchdog_non_replacement 5 8 4 100 PCGET Cmods7.RSC_BUTTONS true true
    { dev := { lastbutton := 0, rgb := 3, ptimer := 5,
               drivlist := List.replicate 16 0 },
      rscButtons := { bkey := 0, uilock := -1 },
      rscLeds := { bkey := 0, uilock := -1 },
      rscDrivlist := { bkey := 0, uilock := -1 } }
    { lastbutton := 0, rgb := 3, ptimer := 5, drivlist := List.replicate 16 0 }
    { update := 0, clksrc := 0, polarity := 0, ptimer := 5 }
    { ptimer := 5 } 3 "" 0
    (by decide) rfl rfl rfl rfl

namespace Ps2

theorem packet_hdlr_dev (dev : PS2DEV) (bkey : Nat) (pkt : PC_PKT) (subs : Bool) :
    (packet_hdlr dev bkey pkt subs).1 = dev := by
  unfold packet_hdlr
  split
  · rfl
  · split
    · rfl
    · split
      · rfl
      · split <;> rfl

theorem packet_hdlr_no_arm (dev : PS2DEV) (bkey : Nat) (pkt : PC_PKT) (subs : Bool) :
    ∀ h, Effect.armTimerE h ∉ (packet_hdlr dev bkey pkt subs).2.2 := by
  intro h
  unfold packet_hdlr
  split
  · simp
  · split
    · simp
    · split
      · simp
      · split <;> simp

theorem step_stable (s : PS2DEV × Nat) (e : Ev) (hp : s.1.ptimer ≠ 0) :
    (step s e).1.1 = s.1 ∧ ∀ h, Effect.armTimerE h ∉ (step s e).2 := by
  cases e with
  | xmit val txret fresh =>
      have hx := ps2xmit_ptimer_stable PCSET val 0 s.1 100 txret fresh hp
      exact ⟨hx.1, hx.2⟩
  | rx pkt subs =>
      exact ⟨packet_hdlr_dev s.1 s.2 pkt subs, packet_hdlr_no_arm s.1 s.2 pkt subs⟩
  | timeout =>
      simp [step, noAck]

theorem run_stable (events : List Ev) (s : PS2DEV × Nat) (hp : s.1.ptimer ≠ 0) :
    (run s events).1.1 = s.1 ∧ ∀ h, Effect.armTimerE h ∉ (run s events).2 := by
  induction events generalizing s with
  | nil => simp [run]
  | cons e es ih =>
      have hstep := step_stable s e hp
      have hp2 : (step s e).1.1.ptimer ≠ 0 := by
        rw [hstep.1]
        exact hp
      have hrest := ih (step s e).1 hp2
      constructor
      · show (run (step s e).1 es).1.1 = s.1
        rw [hrest.1, hstep.1]
      · intro h
        show Effect.armTimerE h ∉ (step s e).2 ++ (run (step s e).1 es).2
        rw [List.mem_append]
        rintro (hm | hm)
        · exact hstep.2 h hm
        · exact hrest.2 h hm

end Ps2

/-- C10.  Stale ptimer in ps2: the write-reply branch of the ps2 packet
handler passes ptimer to del_timer but never resets the field, so from any
state whose ptimer is non-zero the handle never changes again: over every
subsequent event trace (transmits, received packets, timeouts) ptimer keeps
the same stale non-zero value, each further write reply hands that same
stale handle to del_timer, and no event ever performs a new add_timer call,
because the guard in ps2xmit never sees ptimer 0 again; by contrast the
write branches of the cmods7 and rcc8 handlers always leave ptimer 0. -/
theorem C10_ps2_stale_ptimer (dev : Ps2.PS2DEV) (bkey : Nat)
    (events : List Ps2.Ev) (pkt : PC_PKT) (subs : Bool) (hp : dev.ptimer ≠ 0)
    (hsh : pkt.auto ≠ AutoFlag.autoData ∧ pkt.reg = Ps2.PS2_REG_DATA ∧
      pkt.count = 11) :
    (Ps2.packet_hdlr dev bkey pkt subs).1 = dev ∧
    (Ps2.packet_hdlr dev bkey pkt subs).2.2 = [Effect.delTimerE dev.ptimer] ∧
    (Ps2.run (dev, bkey) events).1.1.ptimer = dev.ptimer ∧
    (∀ h, Effect.armTimerE h ∉ (Ps2.run (dev, bkey) events).2) ∧
    (∀ (st : Cmods7.S7State) (p2 : PC_PKT) (s2 : Bool), p2.op = PktOp.write →
      (Cmods7.packet_hdlr st p2 s2).1.dev.ptimer = 0) ∧
    (∀ (rst : Rcc8.RCC8State) (p2 : PC_PKT) (s2 : Bool), p2.op = PktOp.write →
      (Rcc8.packet_hdlr rst p2 s2).1.dev.ptimer = 0) := by
  have hrun := Ps2.run_stable events (dev, bkey) hp
  refine ⟨?_, ?_, by rw [hrun.1], hrun.2, ?_, ?_⟩
  · exact Ps2.packet_hdlr_dev dev bkey pkt subs
  · simp [Ps2.packet_hdlr, hsh]
  · intro st p2 s2 hop
    by_cases hz : st.dev.ptimer ≠ 0
    · simp [Cmods7.packet_hdlr, hop, hz]
    · push_neg at hz
      simp [Cmods7.packet_hdlr, hop, hz]
  · intro rst p2 s2 hop
    simp [Rcc8.packet_hdlr, hop]

/-- Witness for C10: ptimer holds stale handle 9; the trace processes a
write reply, a further transmit (fresh handle 5 on offer, never taken) and
a timeout. -/
theorem C10_ps2_stale_ptimer_witness :
    (Ps2.packet_hdlr { ptimer := 9 } 0 ps2WrPkt true).1 = { ptimer := 9 } ∧
    (Ps2.packet_hdlr { ptimer := 9 } 0 ps2WrPkt true).2.2
      = [Effect.delTimerE (Ps2.PS2DEV.mk 9).ptimer] ∧
    (Ps2.run ({ ptimer := 9 }, 0) ps2Trace).1.1.ptimer
      = (Ps2.PS2DEV.mk 9).ptimer ∧
    (∀ h, Effect.armTimerE h ∉ (Ps2.run ({ ptimer := 9 }, 0) ps2Trace).2) ∧
    (∀ (st : Cmods7.S7State) (p2 : PC_PKT) (s2 : Bool), p2.op = PktOp.write →
      (Cmods7.packet_hdlr st p2 s2).1.dev.ptimer = 0) ∧
    (∀ (rst : Rcc8.RCC8State) (p2 : PC_PKT) (s2 : Bool), p2.op = PktOp.write →
      (Rcc8.packet_hdlr rst p2 s2).1.dev.ptimer = 0) :=
  C10_ps2_stale_ptimer { ptimer := 9 } 0 ps2Trace ps2WrPkt true
    (by decide) (by decide)

end Pcdaemon
